import Mathlib

/-!
Shallow embedding of the wifiqr credential-to-artifact encoding core
(`src/wifiqr/services/*.py` and the header-composition step of
`src/wifiqr/ui/main_window.py`), together with theorems checking the
natural-language specification against it.

Python strings are modelled as Lean `String` (working over `String.data`,
a `List Char`); Python `str.replace` with a single-character needle is
modelled as a character-wise substitution; `str.strip()` and `str.upper()`
are modelled over the ASCII range (the repository only strips/uppercases
ASCII security labels and whitespace-padded SSIDs); dictionaries are
association lists; `raise` is `Except.error`; `uuid.uuid4()` draws are
modelled as an explicit stream `gen : Nat → String` of fresh identifiers;
PIL images are modelled by their pixel dimensions, with font metrics and
image decoding supplied as explicit function parameters.
-/

/-- Python `str.replace(c, r)` for a single-character needle `c`:
replace every occurrence of `c` by the list `r`. -/
def replaceChar (c : Char) (r : List Char) : List Char → List Char
  | [] => []
  | x :: xs => (if x = c then r else [x]) ++ replaceChar c r xs

/-- ASCII whitespace recognised by Python `str.strip()`. -/
def isPySpace (c : Char) : Bool :=
  c = ' ' || c = '\t' || c = '\n' || c = '\r' || c = '\x0b' || c = '\x0c'

/-- Python `str.strip()` on the underlying character list:
drop leading and trailing whitespace. -/
def pyStripList (l : List Char) : List Char :=
  List.rdropWhile isPySpace (List.dropWhile isPySpace l)

/-- Python `str.strip()`. -/
def pyStrip (s : String) : String :=
  String.mk (pyStripList s.data)

/-- Python `str.upper()` (ASCII case mapping, which covers every
security label the application handles). -/
def pyUpper (s : String) : String :=
  String.mk (s.data.map Char.toUpper)

/-- Python `dict.get(key, default)` over an association list. -/
def dictGet (m : List (String × String)) (key dflt : String) : String :=
  match m.find? (fun p => p.1 == key) with
  | some p => p.2
  | none => dflt

/-- `wifiqr.constants.SECURITY_ALIASES`. -/
def SECURITY_ALIASES : List (String × String) :=
  [("WPA/WPA2/WPA3", "WPA"), ("WPA2", "WPA"), ("WPA3", "WPA"),
   ("OPEN", "NOPASS"), ("NONE", "NOPASS"), ("NO PASSWORD", "NOPASS")]

/-- `wifiqr.services.wifi_payload.WifiConfig`. -/
structure WifiConfig where
  location : String := ""
  ssid : String
  password : String
  security : String
  hidden : Bool := false
  image_data : Option String := none
deriving Repr, DecidableEq

/-- The four sequential `str.replace` calls of
`wifiqr.services.wifi_payload._escape`, over character lists:
backslash first, then semicolon, comma, colon. -/
def escapeChain (s : List Char) : List Char :=
  replaceChar ':' ['\\', ':']
    (replaceChar ',' ['\\', ',']
      (replaceChar ';' ['\\', ';']
        (replaceChar '\\' ['\\', '\\'] s)))

/-- `wifiqr.services.wifi_payload._escape`. -/
def _escape (value : String) : String :=
  String.mk (escapeChain value.data)

/-- `wifiqr.services.wifi_payload.normalize_security`:
`SECURITY_ALIASES.get(value.upper().strip(), value.upper().strip())`. -/
def normalize_security (value : String) : String :=
  let key := pyStrip (pyUpper value)
  dictGet SECURITY_ALIASES key key

/-- `wifiqr.services.wifi_payload.security_for_qr`. -/
def security_for_qr (value : String) : String :=
  let normalized := normalize_security value
  if normalized = "NOPASS" then "nopass" else normalized

/-- `wifiqr.services.wifi_payload.build_wifi_payload`. -/
def build_wifi_payload (config : WifiConfig) : String :=
  let ssid := _escape (pyStrip config.ssid)
  let password := _escape config.password
  let security := security_for_qr config.security
  let hidden := if config.hidden then "true" else "false"
  if security = "nopass" then
    "WIFI:T:nopass;S:" ++ ssid ++ ";H:" ++ hidden ++ ";;"
  else
    "WIFI:T:" ++ security ++ ";S:" ++ ssid ++ ";P:" ++ password ++
      ";H:" ++ hidden ++ ";;"

/-- Spec-side description of the payload escaping: a single left-to-right
pass that puts a backslash before each of backslash, semicolon, comma,
colon, acting on one character. -/
def escapeSpecChar (x : Char) : List Char :=
  if x = '\\' || x = ';' || x = ',' || x = ':' then ['\\', x] else [x]

/-- Spec-side description of the payload escaping, over a whole list. -/
def escapeSpecList : List Char → List Char
  | [] => []
  | x :: xs => escapeSpecChar x ++ escapeSpecList xs


/-- The apostrophe character (U+0027). -/
def apos : Char := Char.ofNat 39

/-- The five sequential `str.replace` calls of
`wifiqr.services.xml_utils.xml_escape`, over character lists:
ampersand first, then the angle brackets and the two quote characters. -/
def xmlEscapeChain (s : List Char) : List Char :=
  replaceChar apos ("&apos;".data)
    (replaceChar '"' ("&quot;".data)
      (replaceChar '>' ("&gt;".data)
        (replaceChar '<' ("&lt;".data)
          (replaceChar '&' ("&amp;".data) s))))

/-- `wifiqr.services.xml_utils.xml_escape`. -/
def xml_escape (value : String) : String :=
  String.mk (xmlEscapeChain value.data)

/-- Spec-side description of XML escaping: one left-to-right pass replacing
each special character by its entity. -/
def xmlEscapeSpecChar (x : Char) : List Char :=
  if x = '&' then "&amp;".data
  else if x = '<' then "&lt;".data
  else if x = '>' then "&gt;".data
  else if x = '"' then "&quot;".data
  else if x = apos then "&apos;".data
  else [x]

/-- Spec-side description of XML escaping, over a whole list. -/
def xmlEscapeSpecList : List Char → List Char
  | [] => []
  | x :: xs => xmlEscapeSpecChar x ++ xmlEscapeSpecList xs

/-- `wifiqr.constants.WINDOWS_SECURITY_MAP`: security token to
(authentication, encryption, key type). -/
def WINDOWS_SECURITY_MAP : List (String × String × String × Option String) :=
  [("NOPASS", "open", "none", none), ("WEP", "open", "WEP", some "networkKey")]

/-- `wifiqr.constants.WINDOWS_SECURITY_DEFAULT`. -/
def WINDOWS_SECURITY_DEFAULT : String × String × Option String :=
  ("WPA2PSK", "AES", some "passPhrase")

/-- `wifiqr.services.wifi_profiles._security_to_profile`. -/
def _security_to_profile (config : WifiConfig) : String × String × Option String :=
  let security := normalize_security config.security
  match WINDOWS_SECURITY_MAP.find? (fun p => p.1 == security) with
  | some p => p.2
  | none => WINDOWS_SECURITY_DEFAULT

/-- `wifiqr.services.wifi_profiles.build_wlan_profile_xml`. -/
def build_wlan_profile_xml (config : WifiConfig) : String :=
  let prof := _security_to_profile config
  let auth := prof.1
  let encryption := prof.2.1
  let key_type := prof.2.2
  let ssid := xml_escape config.ssid
  let password := xml_escape config.password
  let hidden := if config.hidden then "true" else "false"
  let key_material :=
    match key_type with
    | some kt =>
        "<sharedKey><keyType>" ++ kt ++ "</keyType><protected>false</protected>" ++
          "<keyMaterial>" ++ password ++ "</keyMaterial></sharedKey>"
    | none => ""
  "<?xml version=\"1.0\"?>" ++
    "<WLANProfile xmlns=\"http://www.microsoft.com/networking/WLAN/profile/v1\">" ++
    "<name>" ++ ssid ++ "</name>" ++
    "<SSIDConfig>" ++ "<SSID>" ++ "<name>" ++ ssid ++ "</name>" ++ "</SSID>" ++
    "<nonBroadcast>" ++ hidden ++ "</nonBroadcast>" ++ "</SSIDConfig>" ++
    "<connectionType>ESS</connectionType>" ++
    "<connectionMode>auto</connectionMode>" ++
    "<MSM>" ++ "<security>" ++ "<authEncryption>" ++
    "<authentication>" ++ auth ++ "</authentication>" ++
    "<encryption>" ++ encryption ++ "</encryption>" ++
    "<useOneX>false</useOneX>" ++ "</authEncryption>" ++
    key_material ++ "</security>" ++ "</MSM>" ++ "</WLANProfile>"

/-- Spec-side Windows security mapping, written out as the claim states it:
NOPASS to (open, none, no key), WEP to (open, WEP, networkKey), anything
else to (WPA2PSK, AES, passPhrase). -/
def windowsAuthSpec (config : WifiConfig) : String × String × Option String :=
  let n := normalize_security config.security
  if n = "NOPASS" then ("open", "none", none)
  else if n = "WEP" then ("open", "WEP", some "networkKey")
  else ("WPA2PSK", "AES", some "passPhrase")

/-- Spec-side sharedKey element: present with the given keyType,
protected=false and the escaped password exactly when the key type is
non-null, absent (empty string) otherwise. -/
def sharedKeySpec (key_type : Option String) (password : String) : String :=
  match key_type with
  | some kt =>
      "<sharedKey><keyType>" ++ kt ++ "</keyType><protected>false</protected>" ++
        "<keyMaterial>" ++ password ++ "</keyMaterial></sharedKey>"
  | none => ""

/-- Spec-side WLAN profile document built from `windowsAuthSpec` and
`sharedKeySpec`. -/
def wlanProfileSpec (config : WifiConfig) : String :=
  let akk := windowsAuthSpec config
  let ssid := xml_escape config.ssid
  let hidden := if config.hidden then "true" else "false"
  "<?xml version=\"1.0\"?>" ++
    "<WLANProfile xmlns=\"http://www.microsoft.com/networking/WLAN/profile/v1\">" ++
    "<name>" ++ ssid ++ "</name>" ++
    "<SSIDConfig>" ++ "<SSID>" ++ "<name>" ++ ssid ++ "</name>" ++ "</SSID>" ++
    "<nonBroadcast>" ++ hidden ++ "</nonBroadcast>" ++ "</SSIDConfig>" ++
    "<connectionType>ESS</connectionType>" ++
    "<connectionMode>auto</connectionMode>" ++
    "<MSM>" ++ "<security>" ++ "<authEncryption>" ++
    "<authentication>" ++ akk.1 ++ "</authentication>" ++
    "<encryption>" ++ akk.2.1 ++ "</encryption>" ++
    "<useOneX>false</useOneX>" ++ "</authEncryption>" ++
    sharedKeySpec akk.2.2 (xml_escape config.password) ++
    "</security>" ++ "</MSM>" ++ "</WLANProfile>"

/-- `wifiqr.constants.MACOS_SECURITY_MAP`. -/
def MACOS_SECURITY_MAP : List (String × String) :=
  [("NOPASS", "None"), ("WEP", "WEP")]

/-- `wifiqr.constants.MACOS_SECURITY_DEFAULT`. -/
def MACOS_SECURITY_DEFAULT : String := "WPA"

/-- `wifiqr.services.macos_profile.MacProfileExport`. -/
structure MacProfileExport where
  identifier : String
  content : String
deriving Repr, DecidableEq

/-- `wifiqr.services.macos_profile._build_wifi_payload`: one
`com.apple.wifi.managed` payload dict. -/
def _build_wifi_payload (config : WifiConfig)
    (payload_identifier wifi_uuid : String) : String :=
  let ssid := xml_escape config.ssid
  let password := xml_escape config.password
  let hidden := if config.hidden then "true" else "false"
  let security := normalize_security config.security
  let encryption := dictGet MACOS_SECURITY_MAP security MACOS_SECURITY_DEFAULT
  let password_block :=
    if encryption ≠ "None" then
      "<key>Password</key><string>" ++ password ++ "</string>"
    else ""
  "<dict>" ++
    "<key>PayloadType</key><string>com.apple.wifi.managed</string>" ++
    "<key>PayloadVersion</key><integer>1</integer>" ++
    "<key>PayloadIdentifier</key><string>" ++ payload_identifier ++ "</string>" ++
    "<key>PayloadUUID</key><string>" ++ wifi_uuid ++ "</string>" ++
    "<key>PayloadDisplayName</key><string>WiFi " ++ ssid ++ "</string>" ++
    "<key>SSID_STR</key><string>" ++ ssid ++ "</string>" ++
    "<key>HIDDEN_NETWORK</key><" ++ hidden ++ "/>" ++
    "<key>EncryptionType</key><string>" ++ encryption ++ "</string>" ++
    password_block ++ "</dict>"

/-- The fixed outer plist wrapper shared by the single- and multi-network
macOS builders. -/
def plistWrap (identifier profile_uuid inner : String) : String :=
  "<?xml version=\"1.0\" encoding=\"UTF-8\"?>" ++
    "<!DOCTYPE plist PUBLIC \"-//Apple//DTD PLIST 1.0//EN\" " ++
    "\"http://www.apple.com/DTDs/PropertyList-1.0.dtd\">" ++
    "<plist version=\"1.0\">" ++ "<dict>" ++
    "<key>PayloadContent</key>" ++ "<array>" ++ inner ++ "</array>" ++
    "<key>PayloadType</key><string>Configuration</string>" ++
    "<key>PayloadVersion</key><integer>1</integer>" ++
    "<key>PayloadIdentifier</key><string>" ++ identifier ++ "</string>" ++
    "<key>PayloadUUID</key><string>" ++ profile_uuid ++ "</string>" ++
    "<key>PayloadDisplayName</key><string>WifiQR Wi-Fi</string>" ++
    "<key>PayloadOrganization</key><string>WifiQR</string>" ++
    "<key>PayloadRemovalDisallowed</key><false/>" ++
    "</dict>" ++ "</plist>"

/-- `wifiqr.services.macos_profile.build_macos_mobileconfig_multi`.
The `uuid.uuid4()` draws are modelled by the stream `gen`: the outer
profile UUID is `gen 0` and the per-network UUID of the i-th network
(0-based) is `gen (i + 1)`, matching the order of the draws in the
source. `raise ValueError` on an empty list is `Except.error`. -/
def build_macos_mobileconfig_multi (gen : Nat → String)
    (configs : List WifiConfig) : Except String MacProfileExport :=
  if configs = [] then Except.error "No networks provided"
  else
    let profile_uuid := gen 0
    let identifier := "com.wifiqr.profile." ++ profile_uuid
    let payloads := configs.mapIdx (fun i config =>
      _build_wifi_payload config (identifier ++ ".wifi." ++ gen (i + 1)) (gen (i + 1)))
    Except.ok ⟨identifier, plistWrap identifier profile_uuid (String.join payloads)⟩

/-- Spec-side macOS encryption mapping, written out as the claim states it. -/
def macEncryptionSpec (config : WifiConfig) : String :=
  let n := normalize_security config.security
  if n = "NOPASS" then "None" else if n = "WEP" then "WEP" else "WPA"

/-- Spec-side macOS Wi-Fi payload dict: contains a Password string element
(escaped password) if and only if the mapped EncryptionType is not None. -/
def macPayloadSpec (config : WifiConfig)
    (payload_identifier wifi_uuid : String) : String :=
  let enc := macEncryptionSpec config
  "<dict>" ++
    "<key>PayloadType</key><string>com.apple.wifi.managed</string>" ++
    "<key>PayloadVersion</key><integer>1</integer>" ++
    "<key>PayloadIdentifier</key><string>" ++ payload_identifier ++ "</string>" ++
    "<key>PayloadUUID</key><string>" ++ wifi_uuid ++ "</string>" ++
    "<key>PayloadDisplayName</key><string>WiFi " ++ xml_escape config.ssid ++ "</string>" ++
    "<key>SSID_STR</key><string>" ++ xml_escape config.ssid ++ "</string>" ++
    "<key>HIDDEN_NETWORK</key><" ++ (if config.hidden then "true" else "false") ++ "/>" ++
    "<key>EncryptionType</key><string>" ++ enc ++ "</string>" ++
    (if enc = "None" then ""
     else "<key>Password</key><string>" ++ xml_escape config.password ++ "</string>") ++
    "</dict>"

/-- Spec-side content of the multi-network macOS profile: one
PayloadContent array holding exactly one payload dict per input network,
in input order, each identified by the outer identifier plus a fresh
suffix drawn from the stream. -/
def macosMultiContentSpec (gen : Nat → String) (configs : List WifiConfig) : String :=
  plistWrap ("com.wifiqr.profile." ++ gen 0) (gen 0)
    (String.join (configs.mapIdx (fun i c =>
      macPayloadSpec c ("com.wifiqr.profile." ++ gen 0 ++ ".wifi." ++ gen (i + 1))
        (gen (i + 1)))))

/-- UTF-8 encoding of a single code point (Python `str.encode("utf-8")`,
one character). -/
def utf8EncodeChar (n : Nat) : List Nat :=
  if n < 0x80 then [n]
  else if n < 0x800 then [0xC0 + n / 64, 0x80 + n % 64]
  else if n < 0x10000 then [0xE0 + n / 4096, 0x80 + n / 64 % 64, 0x80 + n % 64]
  else [0xF0 + n / 262144, 0x80 + n / 4096 % 64, 0x80 + n / 64 % 64, 0x80 + n % 64]

/-- Python `s.encode("utf-8")` as a byte list. -/
def utf8Bytes (s : String) : List Nat :=
  (s.data.map (fun c => utf8EncodeChar c.toNat)).flatten

/-- The standard base64 alphabet. -/
def BASE64_ALPHABET : List Char :=
  ("ABCDEFGHIJKLMNOPQRSTUVWXYZabcdefghijklmnopqrstuvwxyz0123456789+/".data)

/-- The base64 digit for a 6-bit group. -/
def b64Char (n : Nat) : Char := BASE64_ALPHABET.getD n 'A'

/-- Standard base64 encoding of a byte list
(Python `base64.b64encode`). -/
def b64EncodeList : List Nat → List Char
  | [] => []
  | [a] => [b64Char (a / 4), b64Char (a % 4 * 16), '=', '=']
  | [a, b] => [b64Char (a / 4), b64Char (a % 4 * 16 + b / 16), b64Char (b % 16 * 4), '=']
  | a :: b :: c :: rest =>
      b64Char (a / 4) :: b64Char (a % 4 * 16 + b / 16) ::
        b64Char (b % 16 * 4 + c / 64) :: b64Char (c % 64) :: b64EncodeList rest

/-- Python `base64.b64encode(s.encode("utf-8")).decode("ascii")`. -/
def b64encode (s : String) : String := String.mk (b64EncodeList (utf8Bytes s))

/-- `wifiqr.services.windows_script.ScriptExport`. -/
structure ScriptExport where
  ssid : String
  content : String
deriving Repr, DecidableEq

/-- The apostrophe as a one-character string. -/
def aposS : String := String.singleton apos

/-- `wifiqr.services.windows_script._profile_script_block`. -/
def _profile_script_block (profile_path profile_xml : String) : List String :=
  let xml_b64 := b64encode profile_xml
  ["set \"PROFILE_PATH=" ++ profile_path ++ "\"",
   "powershell -NoProfile -ExecutionPolicy Bypass -Command \"$xml=[System.Text.Encoding]::UTF8.GetString([System.Convert]::FromBase64String(" ++
     aposS ++ xml_b64 ++ aposS ++
     ")); Set-Content -LiteralPath \\\"%PROFILE_PATH%\\\" -Value $xml -Encoding UTF8\"",
   "netsh wlan add profile filename=\"%PROFILE_PATH%\" user=all",
   "del /f /q \"%PROFILE_PATH%\""]

/-- `wifiqr.services.windows_script.build_windows_connect_script_multi`.
`raise ValueError` on an empty list is `Except.error`. -/
def build_windows_connect_script_multi (configs : List WifiConfig) :
    Except String ScriptExport :=
  match configs with
  | [] => Except.error "No networks provided"
  | c :: rest =>
    let blocks := List.flatten ((c :: rest).mapIdx (fun i config =>
      _profile_script_block ("%TEMP%\\wifi-profile-" ++ toString (i + 1) ++ ".xml")
        (build_wlan_profile_xml config)))
    let last_ssid := ((c :: rest).getLast (List.cons_ne_nil c rest)).ssid
    let lines := ["@echo off", "setlocal EnableExtensions DisableDelayedExpansion"] ++
      blocks ++ ["netsh wlan connect name=\"" ++ last_ssid ++ "\"", "endlocal"]
    Except.ok ⟨last_ssid, String.intercalate "\r\n" lines ++ "\r\n"⟩

/-- Recognises a `netsh wlan connect` command line of the generated
Windows script (by its fixed leading text). -/
def isConnectLine (l : String) : Bool :=
  ("netsh wlan connect ".data).isPrefixOf l.data

/-- A PIL image, modelled by its pixel dimensions (the only attributes the
verified claims depend on). -/
structure PILImage where
  width : Nat
  height : Nat
deriving Repr, DecidableEq

/-- `MainWindow.HEADER_TEXT_PADDING`. -/
def HEADER_TEXT_PADDING : Nat := 16

/-- `wifiqr.ui.main_window.MainWindow._compose_qr_with_header`.
`textSize` models the PIL font-metric call `draw.textbbox` at font size 48,
returning the (width, height) of the rendered header text. -/
def _compose_qr_with_header (textSize : String → Nat × Nat)
    (image : PILImage) (header : String) : PILImage :=
  let header := pyStrip header
  if header = "" then image
  else
    let text_height := (textSize header).2
    let padding := HEADER_TEXT_PADDING * 2
    let new_width := image.width
    let new_height := image.height + text_height + padding * 2
    ⟨new_width, new_height⟩

/-- `wifiqr.services.qr_service.CENTER_IMAGE_SIZE`. -/
def CENTER_IMAGE_SIZE : Nat := 100

/-- `wifiqr.constants.DEFAULT_QR_SIZE`. -/
def DEFAULT_QR_SIZE : Nat := 640

/-- The index of a character in the base64 alphabet
(`none` for a character outside the alphabet). -/
def b64DecodeIndex (c : Char) : Option Nat :=
  BASE64_ALPHABET.findIdx? (fun x => x == c)

/-- Strict base64 decoding of four-character groups: every character must
be a base64 digit, with at most two trailing padding characters, and the
total length a multiple of four. Models the `binascii`-level validation
performed by Python `base64.b64decode(data, validate=True)` after the
input has been ASCII-encoded: `none` stands for `binascii.Error`. -/
def b64DecodeGroups : List Char → Option (List Nat)
  | [] => some []
  | a :: b :: c :: d :: rest =>
    match b64DecodeIndex a, b64DecodeIndex b with
    | some x, some y =>
      if c = '=' then
        if d = '=' ∧ rest = [] then some [x * 4 + y / 16] else none
      else
        match b64DecodeIndex c with
        | some z =>
          if d = '=' then
            if rest = [] then some [x * 4 + y / 16, y % 16 * 16 + z / 4] else none
          else
            match b64DecodeIndex d with
            | some w =>
              match b64DecodeGroups rest with
              | some bs =>
                  some ((x * 4 + y / 16) :: (y % 16 * 16 + z / 4) :: (z % 4 * 64 + w) :: bs)
              | none => none
            | none => none
        | none => none
    | _, _ => none
  | _ => none

/-- An ASCII character (accepted by Python `str.encode("ascii")`). -/
def isAsciiChar (c : Char) : Bool := c.toNat < 128

/-- The two ways Python `base64.b64decode(data, validate=True)` can fail
on a `str` argument: `asciiValueError` is the plain
`ValueError("string argument should contain only ASCII characters")`
raised while ASCII-encoding a non-ASCII string (it is NOT a
`binascii.Error`); `binasciiError` is the `binascii.Error` raised by the
validating decoder on ASCII input that is not well-formed base64. -/
inductive B64DecodeFailure where
  | asciiValueError : B64DecodeFailure
  | binasciiError : B64DecodeFailure
deriving Repr, DecidableEq

/-- Equality of `Except` results is decidable when both components are;
used to evaluate the embedded builders at concrete inputs. -/
instance exceptDecidableEq {e a : Type} [DecidableEq e] [DecidableEq a] :
    DecidableEq (Except e a) := fun x y =>
  match x, y with
  | Except.error u, Except.error v =>
      if h : u = v then isTrue (by rw [h])
      else isFalse (fun hc => by cases hc; exact h rfl)
  | Except.ok u, Except.ok v =>
      if h : u = v then isTrue (by rw [h])
      else isFalse (fun hc => by cases hc; exact h rfl)
  | Except.error _, Except.ok _ => isFalse (fun hc => Except.noConfusion hc)
  | Except.ok _, Except.error _ => isFalse (fun hc => Except.noConfusion hc)

/-- Python `base64.b64decode(data, validate=True)` on a string: the string
is first ASCII-encoded (plain `ValueError` on non-ASCII input), then the
bytes are decoded with strict validation (`binascii.Error` on malformed
base64). -/
def b64decode_strict (s : String) : Except B64DecodeFailure (List Nat) :=
  if s.data.all isAsciiChar then
    match b64DecodeGroups s.data with
    | some bs => Except.ok bs
    | none => Except.error B64DecodeFailure.binasciiError
  else Except.error B64DecodeFailure.asciiValueError

/-- `wifiqr.services.qr_service.generate_qr_image`.
`makeQR` models the `qrcode` library rendering of the payload (the native
bitmap before resizing); `loadImage` models `PIL.Image.open` on the decoded
bytes (`none` when PIL cannot identify the bytes as an image). The center
overlay is pasted in place, so it leaves the image dimensions unchanged.
An exception reaching the caller is `Except.error` with its message: the
two descriptive errors are the `ValueError`s the source raises itself,
while the ASCII message is the plain `ValueError` escaping from
`base64.b64decode` uncaught, because the source's `except binascii.Error`
handler does not catch it. -/
def generate_qr_image (makeQR : String → PILImage)
    (loadImage : List Nat → Option PILImage)
    (payload : String) (size : Nat) (center_image_data : Option String) :
    Except String PILImage :=
  let image0 := makeQR payload
  let image := if size ≠ 0 ∧ ¬(image0.width = size ∧ image0.height = size) then
      (⟨size, size⟩ : PILImage) else image0
  match center_image_data with
  | none => Except.ok image
  | some data =>
    if data = "" then Except.ok image
    else
      match b64decode_strict data with
      | Except.error B64DecodeFailure.asciiValueError =>
          Except.error "string argument should contain only ASCII characters"
      | Except.error B64DecodeFailure.binasciiError =>
          Except.error "Center image data is not valid base64."
      | Except.ok image_bytes =>
        match loadImage image_bytes with
        | none => Except.error "Center image data is not a valid image."
        | some _center_img => Except.ok image

/-- The QR image produced when no center image is supplied: the rendered
bitmap, resized to the requested square size when it differs. -/
def baseQrImage (makeQR : String → PILImage) (payload : String) (size : Nat) : PILImage :=
  let image0 := makeQR payload
  if size ≠ 0 ∧ ¬(image0.width = size ∧ image0.height = size) then
    (⟨size, size⟩ : PILImage) else image0


theorem replaceChar_append (c : Char) (r xs ys : List Char) :
    replaceChar c r (xs ++ ys) = replaceChar c r xs ++ replaceChar c r ys := by
  induction xs with
  | nil => rfl
  | cons a t ih => simp [replaceChar, ih]

theorem escapeChain_cons (x : Char) (xs : List Char) :
    escapeChain (x :: xs) = escapeChain [x] ++ escapeChain xs := by
  show escapeChain ([x] ++ xs) = _
  simp only [escapeChain, replaceChar_append]

theorem escapeChain_singleton (x : Char) :
    escapeChain [x] = escapeSpecChar x := by
  by_cases h1 : x = '\\'
  · subst h1; rfl
  by_cases h2 : x = ';'
  · subst h2; rfl
  by_cases h3 : x = ','
  · subst h3; rfl
  by_cases h4 : x = ':'
  · subst h4; rfl
  simp [escapeChain, replaceChar, escapeSpecChar, h1, h2, h3, h4]

theorem escapeChain_eq_spec (s : List Char) :
    escapeChain s = escapeSpecList s := by
  induction s with
  | nil => rfl
  | cons x xs ih =>
      rw [escapeChain_cons, escapeChain_singleton, ih]; rfl

theorem char_toNat_ofNat {m : Nat} (h : m.isValidChar) :
    (Char.ofNat m).toNat = m := by
  simp [Char.ofNat, h, Char.ofNatAux, Char.toNat, UInt32.toNat,
    BitVec.toNat_ofNatLt]

theorem toUpper_ne_n (c : Char) : Char.toUpper c ≠ 'n' := by
  unfold Char.toUpper
  simp only []
  by_cases h : c.toNat ≥ 97 ∧ c.toNat ≤ 122
  · rw [if_pos h]
    intro hc
    have hv : (c.toNat - 32).isValidChar := by
      left
      omega
    have h2 := char_toNat_ofNat hv
    rw [hc] at h2
    have hn : ('n').toNat = 110 := by decide
    omega
  · rw [if_neg h]
    intro hc
    apply h
    rw [hc]
    exact ⟨by decide, by decide⟩

theorem mem_of_mem_pyStripList {a : Char} {l : List Char}
    (h : a ∈ pyStripList l) : a ∈ l := by
  unfold pyStripList at h
  have h1 := List.rdropWhile_prefix isPySpace (List.dropWhile isPySpace l)
  have h2 := List.dropWhile_suffix (l := l) isPySpace
  exact h2.sublist.mem (h1.sublist.mem h)

theorem pyUpperStrip_ne_nopass (v : String) :
    pyStrip (pyUpper v) ≠ "nopass" := by
  intro h
  have hd : pyStripList (pyUpper v).data = "nopass".data := congrArg String.data h
  have hn : 'n' ∈ pyStripList (pyUpper v).data := by
    rw [hd]
    decide
  have hm := mem_of_mem_pyStripList hn
  have hmap : (pyUpper v).data = v.data.map Char.toUpper := rfl
  rw [hmap] at hm
  obtain ⟨c, _, hc⟩ := List.mem_map.mp hm
  exact toUpper_ne_n c hc

theorem dictGet_aliases_cases (k d : String) :
    dictGet SECURITY_ALIASES k d = "WPA" ∨ dictGet SECURITY_ALIASES k d = "NOPASS" ∨
      dictGet SECURITY_ALIASES k d = d := by
  unfold dictGet
  rcases hf : SECURITY_ALIASES.find? (fun p => p.1 == k) with _ | p
  · simp [hf]
  · simp only [hf]
    have hmem := List.mem_of_find?_eq_some hf
    simp only [SECURITY_ALIASES, List.mem_cons, List.not_mem_nil, or_false] at hmem
    rcases hmem with h | h | h | h | h | h <;> simp [h]

theorem security_for_qr_eq_nopass_iff (v : String) :
    security_for_qr v = "nopass" ↔ normalize_security v = "NOPASS" := by
  unfold security_for_qr
  by_cases h : normalize_security v = "NOPASS"
  · simp [h]
  · simp only [if_neg h]
    constructor
    · intro hq
      rcases dictGet_aliases_cases (pyStrip (pyUpper v)) (pyStrip (pyUpper v)) with
        hc | hc | hc
      · rw [show normalize_security v =
          dictGet SECURITY_ALIASES (pyStrip (pyUpper v)) (pyStrip (pyUpper v)) from rfl,
          hc] at hq
        exact absurd hq (by decide)
      · exact absurd (by
          rw [show normalize_security v =
            dictGet SECURITY_ALIASES (pyStrip (pyUpper v)) (pyStrip (pyUpper v)) from rfl,
            hc]) h
      · rw [show normalize_security v =
          dictGet SECURITY_ALIASES (pyStrip (pyUpper v)) (pyStrip (pyUpper v)) from rfl,
          hc] at hq
        exact absurd hq (pyUpperStrip_ne_nopass v)
    · intro hq
      exact absurd hq h

/-- C1: for every `WifiConfig`, `build_wifi_payload` returns exactly
`WIFI:T:nopass;S:<ssid>;H:<bool>;;` when the normalized security is
`NOPASS` (no `P:` field), and `WIFI:T:<TOKEN>;S:<ssid>;P:<password>;H:<bool>;;`
otherwise, where `<bool>` is the literal `true`/`false` from the hidden
flag, and ssid (trimmed) and password are escaped by a single left-to-right
pass prefixing a backslash before each of backslash, semicolon, comma and
colon (backslash replacement first, so nothing is double-escaped); nothing
follows the terminal double semicolon. -/
theorem c1_build_wifi_payload_format :
    (∀ s : String, _escape s = String.mk (escapeSpecList s.data)) ∧
    (∀ config : WifiConfig,
      build_wifi_payload config =
        if normalize_security config.security = "NOPASS" then
          "WIFI:T:nopass;S:" ++ String.mk (escapeSpecList (pyStrip config.ssid).data) ++
            ";H:" ++ (if config.hidden then "true" else "false") ++ ";;"
        else
          "WIFI:T:" ++ normalize_security config.security ++ ";S:" ++
            String.mk (escapeSpecList (pyStrip config.ssid).data) ++ ";P:" ++
            String.mk (escapeSpecList config.password.data) ++
            ";H:" ++ (if config.hidden then "true" else "false") ++ ";;") := by
  have hesc : ∀ s : String, _escape s = String.mk (escapeSpecList s.data) := by
    intro s
    unfold _escape
    rw [escapeChain_eq_spec]
  refine ⟨hesc, fun config => ?_⟩
  by_cases h : normalize_security config.security = "NOPASS"
  · have hq : security_for_qr config.security = "nopass" :=
      (security_for_qr_eq_nopass_iff _).mpr h
    simp [build_wifi_payload, hq, h, hesc]
  · have hq : ¬ security_for_qr config.security = "nopass" := fun hc =>
      h ((security_for_qr_eq_nopass_iff _).mp hc)
    have hs : security_for_qr config.security = normalize_security config.security := by
      unfold security_for_qr
      simp [h]
    have hq2 : ¬ normalize_security config.security = "nopass" := hs ▸ hq
    simp [build_wifi_payload, hq, h, hs, hq2, hesc]

/-- C2: for every input string, `normalize_security` uppercases and trims it
and then applies exactly the alias table
WPA/WPA2/WPA3, WPA2, WPA3 to WPA; OPEN, NONE, NO PASSWORD to NOPASS;
any other uppercased/trimmed value is returned unchanged (the function is
total, so no input raises an error). -/
theorem c2_normalize_security_alias_table (value : String) :
    normalize_security value =
      (let key := pyStrip (pyUpper value)
       if key = "WPA/WPA2/WPA3" then "WPA"
       else if key = "WPA2" then "WPA"
       else if key = "WPA3" then "WPA"
       else if key = "OPEN" then "NOPASS"
       else if key = "NONE" then "NOPASS"
       else if key = "NO PASSWORD" then "NOPASS"
       else key) := by
  unfold normalize_security dictGet
  set k := pyStrip (pyUpper value) with hk
  by_cases h1 : k = "WPA/WPA2/WPA3"
  · simp [SECURITY_ALIASES, List.find?, beq_iff_eq, beq_eq_false_iff_ne, h1]
  by_cases h2 : k = "WPA2"
  · simp [SECURITY_ALIASES, List.find?, beq_iff_eq, beq_eq_false_iff_ne, h1, h2, Ne.symm h1]
  by_cases h3 : k = "WPA3"
  · simp [SECURITY_ALIASES, List.find?, beq_iff_eq, beq_eq_false_iff_ne, h1, h2, h3, Ne.symm h1, Ne.symm h2]
  by_cases h4 : k = "OPEN"
  · simp [SECURITY_ALIASES, List.find?, beq_iff_eq, beq_eq_false_iff_ne, h1, h2, h3, h4,
      Ne.symm h1, Ne.symm h2, Ne.symm h3]
  by_cases h5 : k = "NONE"
  · simp [SECURITY_ALIASES, List.find?, beq_iff_eq, beq_eq_false_iff_ne, h1, h2, h3, h4, h5,
      Ne.symm h1, Ne.symm h2, Ne.symm h3, Ne.symm h4]
  by_cases h6 : k = "NO PASSWORD"
  · simp [SECURITY_ALIASES, List.find?, beq_iff_eq, beq_eq_false_iff_ne, h1, h2, h3, h4, h5, h6,
      Ne.symm h1, Ne.symm h2, Ne.symm h3, Ne.symm h4, Ne.symm h5]
  · have e1 : ("WPA/WPA2/WPA3" == k) = false := beq_eq_false_iff_ne.mpr (Ne.symm h1)
    have e2 : ("WPA2" == k) = false := beq_eq_false_iff_ne.mpr (Ne.symm h2)
    have e3 : ("WPA3" == k) = false := beq_eq_false_iff_ne.mpr (Ne.symm h3)
    have e4 : ("OPEN" == k) = false := beq_eq_false_iff_ne.mpr (Ne.symm h4)
    have e5 : ("NONE" == k) = false := beq_eq_false_iff_ne.mpr (Ne.symm h5)
    have e6 : ("NO PASSWORD" == k) = false := beq_eq_false_iff_ne.mpr (Ne.symm h6)
    simp [SECURITY_ALIASES, List.find?, e1, e2, e3, e4, e5, e6,
      h1, h2, h3, h4, h5, h6]

theorem dropWhile_rdropWhile_dropWhile (l : List Char) :
    List.dropWhile isPySpace (List.rdropWhile isPySpace (List.dropWhile isPySpace l)) =
      List.rdropWhile isPySpace (List.dropWhile isPySpace l) := by
  rw [List.dropWhile_eq_self_iff]
  intro hl
  have hpre := List.rdropWhile_prefix isPySpace (List.dropWhile isPySpace l)
  have hlen : 0 < (List.dropWhile isPySpace l).length :=
    lt_of_lt_of_le hl hpre.length_le
  have hg := hpre.getElem (n := 0) hl
  have hy0 := List.dropWhile_get_zero_not isPySpace l hlen
  simp only [List.get_eq_getElem] at hy0 ⊢
  rw [hg]
  exact hy0

theorem pyStripList_idem (l : List Char) :
    pyStripList (pyStripList l) = pyStripList l := by
  unfold pyStripList
  rw [dropWhile_rdropWhile_dropWhile, List.rdropWhile_idempotent]

theorem pyStrip_idem (s : String) : pyStrip (pyStrip s) = pyStrip s :=
  congrArg String.mk (pyStripList_idem s.data)

set_option maxRecDepth 40000 in
/-- C7 counterexample: the claim that the ssid is trimmed before encoding
in every output format fails for the Windows WLAN profile builder: the
record with ssid " A " renders differently from the record with the
trimmed ssid "A". -/
theorem c7_ssid_trim_counterexample :
    build_wlan_profile_xml ⟨"", " A ", "p", "WPA", false, none⟩ ≠
      build_wlan_profile_xml ⟨"", "A", "p", "WPA", false, none⟩ := by
  decide

set_option maxRecDepth 40000 in
/-- C7 (amended): the ssid is trimmed of leading/trailing whitespace before
encoding in the QR payload only (trim-invariance of `build_wifi_payload`);
the Windows WLAN profile builder and the macOS payload builder embed the
ssid as given, untrimmed (witnessed by " A " versus "A"); the password is
never trimmed in any of the three formats (a password " p " is embedded
with its spaces in the QR payload, and changes the Windows profile and the
macOS payload relative to its trimmed form). -/
theorem c7_ssid_trimmed_only_in_qr_payload :
    (∀ config : WifiConfig,
      build_wifi_payload config =
        build_wifi_payload { config with ssid := pyStrip config.ssid }) ∧
    build_wlan_profile_xml ⟨"", " A ", "p", "WPA", false, none⟩ ≠
      build_wlan_profile_xml ⟨"", "A", "p", "WPA", false, none⟩ ∧
    _build_wifi_payload ⟨"", " A ", "p", "WPA", false, none⟩ "pid" "uu" ≠
      _build_wifi_payload ⟨"", "A", "p", "WPA", false, none⟩ "pid" "uu" ∧
    build_wifi_payload ⟨"", "A", " p ", "WPA", false, none⟩ =
      "WIFI:T:WPA;S:A;P: p ;H:false;;" ∧
    build_wlan_profile_xml ⟨"", "A", " p ", "WPA", false, none⟩ ≠
      build_wlan_profile_xml ⟨"", "A", "p", "WPA", false, none⟩ ∧
    _build_wifi_payload ⟨"", "A", " p ", "WPA", false, none⟩ "pid" "uu" ≠
      _build_wifi_payload ⟨"", "A", "p", "WPA", false, none⟩ "pid" "uu" := by
  refine ⟨fun config => ?_, by decide, by decide, by decide, by decide, by decide⟩
  simp only [build_wifi_payload, pyStrip_idem]

/-- C8: composing a header onto a QR image with empty or whitespace-only
header text returns the original image unchanged (the function returns its
argument itself); for non-empty (after trimming) text it returns a new
image of equal width and strictly greater height (the text height plus
twice the doubled `HEADER_TEXT_PADDING` is added, and the fixed padding
alone contributes 64 pixels, so the increase is never zero). -/
theorem c8_compose_qr_with_header_spec (textSize : String → Nat × Nat)
    (image : PILImage) (header : String) :
    (_compose_qr_with_header textSize image header =
      if pyStrip header = "" then image
      else ⟨image.width,
        image.height + (textSize (pyStrip header)).2 + HEADER_TEXT_PADDING * 2 * 2⟩) ∧
    image.height <
      image.height + (textSize (pyStrip header)).2 + HEADER_TEXT_PADDING * 2 * 2 := by
  constructor
  · by_cases h : pyStrip header = ""
    · simp [_compose_qr_with_header, h]
    · simp [_compose_qr_with_header, h]
  · have hp : HEADER_TEXT_PADDING = 16 := rfl
    omega

theorem xmlEscapeChain_cons (x : Char) (xs : List Char) :
    xmlEscapeChain (x :: xs) = xmlEscapeChain [x] ++ xmlEscapeChain xs := by
  show xmlEscapeChain ([x] ++ xs) = _
  simp only [xmlEscapeChain, replaceChar_append]

theorem xmlEscapeChain_singleton (x : Char) :
    xmlEscapeChain [x] = xmlEscapeSpecChar x := by
  by_cases h1 : x = '&'
  · subst h1; rfl
  by_cases h2 : x = '<'
  · subst h2; rfl
  by_cases h3 : x = '>'
  · subst h3; rfl
  by_cases h4 : x = '"'
  · subst h4; rfl
  by_cases h5 : x = apos
  · subst h5; rfl
  simp [xmlEscapeChain, replaceChar, xmlEscapeSpecChar, h1, h2, h3, h4, h5]

theorem xmlEscapeChain_eq_spec (s : List Char) :
    xmlEscapeChain s = xmlEscapeSpecList s := by
  induction s with
  | nil => rfl
  | cons x xs ih =>
      rw [xmlEscapeChain_cons, xmlEscapeChain_singleton, ih]; rfl

set_option maxRecDepth 40000 in
/-- C6: `xml_escape` performs exactly the five replacements amp, lt, gt,
quot, apos — equivalently, a single left-to-right pass replacing each
special character by its entity, so entities introduced by later
replacements are never double-escaped; in particular the SSID `AC&ME`
renders as `AC&amp;ME` and the password `p<>` renders as `p&lt;&gt;`,
both standalone and inside the Windows profile builder output. -/
theorem c6_xml_escape_single_pass :
    (∀ s : String, xml_escape s = String.mk (xmlEscapeSpecList s.data)) ∧
    xml_escape "AC&ME" = "AC&amp;ME" ∧
    xml_escape "p<>" = "p&lt;&gt;" ∧
    build_wlan_profile_xml ⟨"", "AC&ME", "p<>", "WPA", false, none⟩ =
      "<?xml version=\"1.0\"?>" ++
        "<WLANProfile xmlns=\"http://www.microsoft.com/networking/WLAN/profile/v1\">" ++
        "<name>AC&amp;ME</name>" ++
        "<SSIDConfig><SSID><name>AC&amp;ME</name></SSID>" ++
        "<nonBroadcast>false</nonBroadcast></SSIDConfig>" ++
        "<connectionType>ESS</connectionType>" ++
        "<connectionMode>auto</connectionMode>" ++
        "<MSM><security><authEncryption>" ++
        "<authentication>WPA2PSK</authentication>" ++
        "<encryption>AES</encryption>" ++
        "<useOneX>false</useOneX></authEncryption>" ++
        "<sharedKey><keyType>passPhrase</keyType><protected>false</protected>" ++
        "<keyMaterial>p&lt;&gt;</keyMaterial></sharedKey>" ++
        "</security></MSM></WLANProfile>" := by
  refine ⟨fun s => ?_, by decide, by decide, by decide⟩
  unfold xml_escape
  rw [xmlEscapeChain_eq_spec]

theorem security_to_profile_eq_spec (config : WifiConfig) :
    _security_to_profile config = windowsAuthSpec config := by
  unfold _security_to_profile windowsAuthSpec
  by_cases h1 : normalize_security config.security = "NOPASS"
  · have e1 : ("NOPASS" == normalize_security config.security) = true := by
      rw [h1]; decide
    simp [WINDOWS_SECURITY_MAP, List.find?, e1, h1]
  by_cases h2 : normalize_security config.security = "WEP"
  · have e1 : ("NOPASS" == normalize_security config.security) = false := by
      rw [h2]; decide
    have e2 : ("WEP" == normalize_security config.security) = true := by
      rw [h2]; decide
    simp [WINDOWS_SECURITY_MAP, List.find?, e1, e2, h1, h2]
  · have e1 : ("NOPASS" == normalize_security config.security) = false :=
      beq_eq_false_iff_ne.mpr (Ne.symm h1)
    have e2 : ("WEP" == normalize_security config.security) = false :=
      beq_eq_false_iff_ne.mpr (Ne.symm h2)
    simp [WINDOWS_SECURITY_MAP, WINDOWS_SECURITY_DEFAULT, List.find?, e1, e2, h1, h2]

/-- C3: `build_wlan_profile_xml` maps the normalized security as
NOPASS to (authentication open, encryption none, no key),
WEP to (open, WEP, keyType networkKey), and anything else to
(WPA2PSK, AES, keyType passPhrase); when the key type is non-null the
output contains the sharedKey element with that keyType, protected=false
and keyMaterial equal to the XML-escaped password, and when the key type
is null (open networks) the sharedKey element is absent — the output is
exactly the profile document `wlanProfileSpec`, whose sharedKey section is
the empty string in that case. -/
theorem c3_build_wlan_profile_xml_spec (config : WifiConfig) :
    build_wlan_profile_xml config = wlanProfileSpec config := by
  unfold build_wlan_profile_xml wlanProfileSpec sharedKeySpec
  rw [security_to_profile_eq_spec]

theorem mac_payload_eq_spec (config : WifiConfig) (pid uu : String) :
    _build_wifi_payload config pid uu = macPayloadSpec config pid uu := by
  unfold _build_wifi_payload macPayloadSpec macEncryptionSpec
  by_cases h1 : normalize_security config.security = "NOPASS"
  · have e1 : ("NOPASS" == normalize_security config.security) = true := by
      rw [h1]; decide
    simp [dictGet, MACOS_SECURITY_MAP, List.find?, e1, h1]
  by_cases h2 : normalize_security config.security = "WEP"
  · have e1 : ("NOPASS" == normalize_security config.security) = false := by
      rw [h2]; decide
    have e2 : ("WEP" == normalize_security config.security) = true := by
      rw [h2]; decide
    simp [dictGet, MACOS_SECURITY_MAP, List.find?, e1, e2, h1, h2]
  · have e1 : ("NOPASS" == normalize_security config.security) = false :=
      beq_eq_false_iff_ne.mpr (Ne.symm h1)
    have e2 : ("WEP" == normalize_security config.security) = false :=
      beq_eq_false_iff_ne.mpr (Ne.symm h2)
    simp [dictGet, MACOS_SECURITY_MAP, MACOS_SECURITY_DEFAULT, List.find?,
      e1, e2, h1, h2]

/-- C4: `build_macos_mobileconfig_multi` on a non-empty list of N networks
produces one PayloadContent array containing exactly N
com.apple.wifi.managed payload dicts in input order (the content equals
`macosMultiContentSpec`, which joins one `macPayloadSpec` per network);
each payload contains a Password string element (XML-escaped password) if
and only if its mapped EncryptionType is not None, and each payload's
identifier is the outer identifier plus a fresh suffix from the UUID
stream; on the empty list it raises (returns an error). -/
theorem c4_build_macos_mobileconfig_multi_spec (gen : Nat → String) :
    build_macos_mobileconfig_multi gen [] = Except.error "No networks provided" ∧
    ∀ (c : WifiConfig) (rest : List WifiConfig),
      build_macos_mobileconfig_multi gen (c :: rest) =
        Except.ok ⟨"com.wifiqr.profile." ++ gen 0,
          macosMultiContentSpec gen (c :: rest)⟩ := by
  constructor
  · rfl
  · intro c rest
    unfold build_macos_mobileconfig_multi macosMultiContentSpec
    rw [if_neg (List.cons_ne_nil c rest)]
    simp only [mac_payload_eq_spec]

theorem countP_connect_block (path xml : String) :
    List.countP isConnectLine (_profile_script_block path xml) = 0 := rfl

theorem countP_flatten_mapIdx_zero (l : List WifiConfig)
    (f : Nat → WifiConfig → List String)
    (h : ∀ i c, List.countP isConnectLine (f i c) = 0) :
    List.countP isConnectLine (List.flatten (l.mapIdx f)) = 0 := by
  induction l generalizing f with
  | nil => rfl
  | cons a t ih =>
      rw [List.mapIdx_cons, List.flatten_cons, List.countP_append, h 0 a,
        ih (fun i c => f (i + 1) c) (fun i c => h (i + 1) c)]

/-- C5: `build_windows_connect_script_multi` on a non-empty list of N
networks produces a script that begins with `@echo off` and
`setlocal EnableExtensions DisableDelayedExpansion`, repeats the
write/add/delete profile block once per network in input order using the
indexed temp filename wifi-profile-(i).xml for the i-th network (1-based),
contains exactly one connect command line, which names only the last
network's SSID, ends with `endlocal`, and joins all lines with CRLF (also
terminating the script with CRLF); on the empty list it raises (returns an
error). -/
theorem c5_build_windows_connect_script_multi_spec :
    build_windows_connect_script_multi [] = Except.error "No networks provided" ∧
    ∀ (c : WifiConfig) (rest : List WifiConfig),
      (build_windows_connect_script_multi (c :: rest) =
        Except.ok ⟨((c :: rest).getLast (List.cons_ne_nil c rest)).ssid,
          String.intercalate "\r\n"
            (["@echo off", "setlocal EnableExtensions DisableDelayedExpansion"] ++
              List.flatten ((c :: rest).mapIdx (fun i config =>
                _profile_script_block
                  ("%TEMP%\\wifi-profile-" ++ toString (i + 1) ++ ".xml")
                  (build_wlan_profile_xml config))) ++
              ["netsh wlan connect name=\"" ++
                  ((c :: rest).getLast (List.cons_ne_nil c rest)).ssid ++ "\"",
                "endlocal"]) ++ "\r\n"⟩) ∧
      List.countP isConnectLine
        (["@echo off", "setlocal EnableExtensions DisableDelayedExpansion"] ++
          List.flatten ((c :: rest).mapIdx (fun i config =>
            _profile_script_block
              ("%TEMP%\\wifi-profile-" ++ toString (i + 1) ++ ".xml")
              (build_wlan_profile_xml config))) ++
          ["netsh wlan connect name=\"" ++
              ((c :: rest).getLast (List.cons_ne_nil c rest)).ssid ++ "\"",
            "endlocal"]) = 1 := by
  refine ⟨rfl, fun c rest => ⟨rfl, ?_⟩⟩
  rw [List.countP_append, List.countP_append]
  have hB : List.countP isConnectLine
      (List.flatten ((c :: rest).mapIdx (fun i config =>
        _profile_script_block
          ("%TEMP%\\wifi-profile-" ++ toString (i + 1) ++ ".xml")
          (build_wlan_profile_xml config)))) = 0 :=
    countP_flatten_mapIdx_zero (c :: rest) _
      (fun i config => countP_connect_block _ _)
  rw [hB]
  rfl

/-- C10: for every payload and size, calling `generate_qr_image` with
center-image data equal to the empty string behaves exactly as if the data
were `none`: no decoding or overlay happens and no error is raised — both
calls return the same plain resized QR image — because the overlay branch
is guarded by Python truthiness, which treats the empty string like
`None`. -/
theorem c10_empty_center_data_is_no_center (makeQR : String → PILImage)
    (loadImage : List Nat → Option PILImage) (payload : String) (size : Nat) :
    generate_qr_image makeQR loadImage payload size (some "") =
      generate_qr_image makeQR loadImage payload size none ∧
    generate_qr_image makeQR loadImage payload size (some "") =
      Except.ok (baseQrImage makeQR payload size) := by
  constructor
  · rfl
  · rfl
